import Mathlib

/-!
Verification development for `YoutubeRipper5000.py`, a small command-line
YouTube downloader.  The definitions below are a shallow embedding of the
script's own logic: the regex-based URL validator, the run-context builder
(output folder and timestamped log-file path), the assembly of the yt-dlp
option record, the `FileLogger` adapter, and the straight-line control flow
of `main` (modelled as an explicit trace of console/filesystem events plus
a process exit code).  The external extraction engine (`yt_dlp`) and the
real filesystem/clock are abstracted as inputs in an `Env` record.
-/

namespace YoutubeRipper5000

/-- Python whitespace, as matched by the regex class `\s` on `str` patterns
and stripped by `str.strip()`: the characters for which `str.isspace()`
holds (ASCII whitespace, the information separators, NEL, NBSP and the
Unicode space separators). -/
def isPySpace (c : Char) : Bool :=
  ('\t' ≤ c && c ≤ '\r') || c == ' ' ||
  ('\x1c' ≤ c && c ≤ '\x1f') || c == '\x85' || c == '\xa0' ||
  c == '\u1680' || ('\u2000' ≤ c && c ≤ '\u200a') ||
  c == '\u2028' || c == '\u2029' || c == '\u202f' ||
  c == '\u205f' || c == '\u3000'

/-- Python `str.strip()` with no argument: remove leading and trailing
whitespace. -/
def pyStrip (s : String) : String :=
  ⟨((s.data.dropWhile isPySpace).reverse.dropWhile isPySpace).reverse⟩

/-- The negated character class `[^&\s]` of the first three regexes:
`&` or whitespace is forbidden right after `v=` / `list=`. -/
def badAmp (c : Char) : Bool := c == '&' || isPySpace c

/-- The negated character class `[^?\s]` of the `youtu.be` regex. -/
def badQm (c : Char) : Bool := c == '?' || isPySpace c

/-- One syntactic element of the regexes in `YOUTUBE_PATTERNS`.  The four
patterns only use literal runs, an optional literal group `(...)?`, and a
final negated character class with `+`. -/
inductive Tok where
  | lit (s : String)
  | opt (s : String)
  | plusNot (bad : Char → Bool)

/-- Consume a literal run from the front of the input, returning the rest,
or `none` when the literal is not a prefix of the input. -/
def dropLit : List Char → List Char → Option (List Char)
  | [], s => some s
  | _ :: _, [] => none
  | c :: cs, d :: ds => if c = d then dropLit cs ds else none

/-- Backtracking matcher for `[^...]+` followed by the rest of the pattern
(`next`): consume one forbidden-free character, then either the rest of
the pattern matches here or the class keeps consuming. -/
def matchPlus (bad : Char → Bool) (next : List Char → Bool) : List Char → Bool
  | [] => false
  | c :: s => !bad c && (next s || matchPlus bad next s)

/-- Anchored regex matching on a token list, with `re.match` semantics:
the pattern has to match a prefix of the input only, so an exhausted
token list succeeds whatever input remains. -/
def matchToks : List Tok → List Char → Bool
  | [], _ => true
  | Tok.lit l :: ts, s =>
    match dropLit l.data s with
    | some s' => matchToks ts s'
    | none => false
  | Tok.opt l :: ts, s =>
    (match dropLit l.data s with
     | some s' => matchToks ts s'
     | none => false) || matchToks ts s
  | Tok.plusNot bad :: ts, s => matchPlus bad (matchToks ts) s

/-- The four regexes of `YOUTUBE_PATTERNS`, transliterated token by token:
`^https?://(www\.)?youtube\.com/watch\?v=[^&\s]+`,
`^https?://(www\.)?youtube\.com/playlist\?list=[^&\s]+`,
`^https?://(m\.)?youtube\.com/watch\?v=[^&\s]+`,
`^https?://(www\.)?youtu\.be/[^?\s]+`. -/
def YOUTUBE_PATTERNS : List (List Tok) :=
  [ [Tok.lit "http", Tok.opt "s", Tok.lit "://", Tok.opt "www.",
     Tok.lit "youtube.com/watch?v=", Tok.plusNot badAmp],
    [Tok.lit "http", Tok.opt "s", Tok.lit "://", Tok.opt "www.",
     Tok.lit "youtube.com/playlist?list=", Tok.plusNot badAmp],
    [Tok.lit "http", Tok.opt "s", Tok.lit "://", Tok.opt "m.",
     Tok.lit "youtube.com/watch?v=", Tok.plusNot badAmp],
    [Tok.lit "http", Tok.opt "s", Tok.lit "://", Tok.opt "www.",
     Tok.lit "youtu.be/", Tok.plusNot badQm] ]

/-- `is_valid_youtube_url`: `any(re.match(p, url) for p in YOUTUBE_PATTERNS)`. -/
def is_valid_youtube_url (url : String) : Bool :=
  YOUTUBE_PATTERNS.any fun p => matchToks p url.data

/-! ### The validator characterised by explicit prefix decompositions -/

/-- Spec-side reading of one accepted URL shape: the string starts with an
`http`/`https` scheme, one of the tolerated subdomain prefixes, the
shape's fixed host-and-path segment, then at least one character outside
the shape's forbidden class; the rest of the string is arbitrary. -/
def ShapeMatch (subs : List String) (host : String) (bad : Char → Bool) (s : String) : Prop :=
  ∃ scheme ∈ (["http://", "https://"] : List String), ∃ sub ∈ subs,
    ∃ c rest, s.data = (scheme ++ sub ++ host).data ++ c :: rest ∧ bad c = false

/-- Spec-side description of the accepted-URL predicate: one of the four
shapes (standard watch, playlist, mobile watch, short-link), each with the
subdomain prefixes its regex tolerates, matched as an anchored prefix. -/
def AcceptedShape (s : String) : Prop :=
  ShapeMatch ["", "www."] "youtube.com/watch?v=" badAmp s ∨
  ShapeMatch ["", "www."] "youtube.com/playlist?list=" badAmp s ∨
  ShapeMatch ["", "m."] "youtube.com/watch?v=" badAmp s ∨
  ShapeMatch ["", "www."] "youtu.be/" badQm s

theorem data_nil : ("" : String).data = [] := rfl

theorem scheme_http : ("http://" : String).data = "http".data ++ "://".data := rfl

theorem scheme_https : ("https://" : String).data = "http".data ++ "s".data ++ "://".data := rfl

theorem dropLit_eq_some {l s s' : List Char} : dropLit l s = some s' ↔ s = l ++ s' := by
  induction l generalizing s with
  | nil => simp [dropLit]
  | cons c cs ih =>
    cases s with
    | nil => simp [dropLit]
    | cons d ds =>
      by_cases h : c = d
      · subst h
        simp [dropLit, ih]
      · rw [dropLit, if_neg h]
        simp only [List.cons_append, List.cons.injEq]
        constructor
        · intro hfalse; exact Option.noConfusion hfalse
        · rintro ⟨heq, -⟩; exact absurd heq.symm h

theorem matchToks_lit {l : String} {ts : List Tok} {s : List Char} :
    matchToks (Tok.lit l :: ts) s = true ↔
      ∃ s', s = l.data ++ s' ∧ matchToks ts s' = true := by
  rw [matchToks]
  cases h : dropLit l.data s with
  | some s1 =>
    rw [dropLit_eq_some] at h
    subst h
    constructor
    · intro hm; exact ⟨s1, rfl, hm⟩
    · rintro ⟨s2, heq, hm⟩
      obtain rfl : s1 = s2 := List.append_cancel_left heq
      exact hm
  | none =>
    constructor
    · intro hfalse; exact Bool.noConfusion hfalse
    · rintro ⟨s2, rfl, -⟩
      have h2 : dropLit l.data (l.data ++ s2) = some s2 := dropLit_eq_some.mpr rfl
      rw [h2] at h
      exact Option.noConfusion h

theorem matchToks_opt {l : String} {ts : List Tok} {s : List Char} :
    matchToks (Tok.opt l :: ts) s = true ↔
      (∃ s', s = l.data ++ s' ∧ matchToks ts s' = true) ∨ matchToks ts s = true := by
  rw [matchToks, Bool.or_eq_true]
  cases h : dropLit l.data s with
  | some s1 =>
    rw [dropLit_eq_some] at h
    subst h
    constructor
    · rintro (hm | hm)
      · exact Or.inl ⟨s1, rfl, hm⟩
      · exact Or.inr hm
    · rintro (⟨s2, heq, hm⟩ | hm)
      · obtain rfl : s1 = s2 := List.append_cancel_left heq
        exact Or.inl hm
      · exact Or.inr hm
  | none =>
    constructor
    · rintro (hfalse | hm)
      · exact Bool.noConfusion hfalse
      · exact Or.inr hm
    · rintro (⟨s2, rfl, -⟩ | hm)
      · have h2 : dropLit l.data (l.data ++ s2) = some s2 := dropLit_eq_some.mpr rfl
        rw [h2] at h
        exact Option.noConfusion h
      · exact Or.inr hm

theorem matchToks_plus {bad : Char → Bool} {s : List Char} :
    matchToks [Tok.plusNot bad] s = true ↔ ∃ c rest, s = c :: rest ∧ bad c = false := by
  cases s with
  | nil => simp [matchToks, matchPlus]
  | cons c s => simp [matchToks, matchPlus, List.cons.injEq]

theorem matchShape_iff (sub host : String) (bad : Char → Bool) (s : String) :
    matchToks [Tok.lit "http", Tok.opt "s", Tok.lit "://", Tok.opt sub,
               Tok.lit host, Tok.plusNot bad] s.data = true ↔
      ShapeMatch ["", sub] host bad s := by
  constructor
  · intro h
    rw [matchToks_lit] at h
    obtain ⟨s1, hs1, h⟩ := h
    rw [matchToks_opt] at h
    rcases h with ⟨s2, hs2, h⟩ | h
    · rw [matchToks_lit] at h
      obtain ⟨s3, hs3, h⟩ := h
      rw [matchToks_opt] at h
      rcases h with ⟨s4, hs4, h⟩ | h
      · rw [matchToks_lit] at h
        obtain ⟨s5, hs5, h⟩ := h
        rw [matchToks_plus] at h
        obtain ⟨c, rest, hcr, hbad⟩ := h
        subst hcr; subst hs5; subst hs4; subst hs3; subst hs2
        refine ⟨"https://", by simp, sub, by simp, c, rest, ?_, hbad⟩
        rw [hs1]
        simp [String.data_append, scheme_https, List.append_assoc]
      · rw [matchToks_lit] at h
        obtain ⟨s5, hs5, h⟩ := h
        rw [matchToks_plus] at h
        obtain ⟨c, rest, hcr, hbad⟩ := h
        subst hcr; subst hs5; subst hs3; subst hs2
        refine ⟨"https://", by simp, "", by simp, c, rest, ?_, hbad⟩
        rw [hs1]
        simp [String.data_append, scheme_https, data_nil, List.append_assoc]
    · rw [matchToks_lit] at h
      obtain ⟨s3, hs3, h⟩ := h
      rw [matchToks_opt] at h
      rcases h with ⟨s4, hs4, h⟩ | h
      · rw [matchToks_lit] at h
        obtain ⟨s5, hs5, h⟩ := h
        rw [matchToks_plus] at h
        obtain ⟨c, rest, hcr, hbad⟩ := h
        subst hcr; subst hs5; subst hs4; subst hs3
        refine ⟨"http://", by simp, sub, by simp, c, rest, ?_, hbad⟩
        rw [hs1]
        simp [String.data_append, scheme_http, List.append_assoc]
      · rw [matchToks_lit] at h
        obtain ⟨s5, hs5, h⟩ := h
        rw [matchToks_plus] at h
        obtain ⟨c, rest, hcr, hbad⟩ := h
        subst hcr; subst hs5; subst hs3
        refine ⟨"http://", by simp, "", by simp, c, rest, ?_, hbad⟩
        rw [hs1]
        simp [String.data_append, scheme_http, data_nil, List.append_assoc]
  · rintro ⟨scheme, hscheme, sb, hsb, c, rest, heq, hbad⟩
    simp only [List.mem_cons, List.not_mem_nil, or_false] at hscheme hsb
    rcases hscheme with rfl | rfl <;> rcases hsb with rfl | rfl
    · rw [matchToks_lit]
      refine ⟨"://".data ++ (host.data ++ c :: rest), ?_, ?_⟩
      · rw [heq]; simp [String.data_append, scheme_http, data_nil, List.append_assoc]
      · rw [matchToks_opt]
        refine Or.inr ?_
        rw [matchToks_lit]
        refine ⟨host.data ++ c :: rest, rfl, ?_⟩
        rw [matchToks_opt]
        refine Or.inr ?_
        rw [matchToks_lit]
        refine ⟨c :: rest, rfl, ?_⟩
        rw [matchToks_plus]
        exact ⟨c, rest, rfl, hbad⟩
    · rw [matchToks_lit]
      refine ⟨"://".data ++ (sb.data ++ (host.data ++ c :: rest)), ?_, ?_⟩
      · rw [heq]; simp [String.data_append, scheme_http, List.append_assoc]
      · rw [matchToks_opt]
        refine Or.inr ?_
        rw [matchToks_lit]
        refine ⟨sb.data ++ (host.data ++ c :: rest), rfl, ?_⟩
        rw [matchToks_opt]
        refine Or.inl ⟨host.data ++ c :: rest, rfl, ?_⟩
        rw [matchToks_lit]
        refine ⟨c :: rest, rfl, ?_⟩
        rw [matchToks_plus]
        exact ⟨c, rest, rfl, hbad⟩
    · rw [matchToks_lit]
      refine ⟨"s".data ++ ("://".data ++ (host.data ++ c :: rest)), ?_, ?_⟩
      · rw [heq]; simp [String.data_append, scheme_https, data_nil, List.append_assoc]
      · rw [matchToks_opt]
        refine Or.inl ⟨"://".data ++ (host.data ++ c :: rest), rfl, ?_⟩
        rw [matchToks_lit]
        refine ⟨host.data ++ c :: rest, rfl, ?_⟩
        rw [matchToks_opt]
        refine Or.inr ?_
        rw [matchToks_lit]
        refine ⟨c :: rest, rfl, ?_⟩
        rw [matchToks_plus]
        exact ⟨c, rest, rfl, hbad⟩
    · rw [matchToks_lit]
      refine ⟨"s".data ++ ("://".data ++ (sb.data ++ (host.data ++ c :: rest))), ?_, ?_⟩
      · rw [heq]; simp [String.data_append, scheme_https, List.append_assoc]
      · rw [matchToks_opt]
        refine Or.inl ⟨"://".data ++ (sb.data ++ (host.data ++ c :: rest)), rfl, ?_⟩
        rw [matchToks_lit]
        refine ⟨sb.data ++ (host.data ++ c :: rest), rfl, ?_⟩
        rw [matchToks_opt]
        refine Or.inl ⟨host.data ++ c :: rest, rfl, ?_⟩
        rw [matchToks_lit]
        refine ⟨c :: rest, rfl, ?_⟩
        rw [matchToks_plus]
        exact ⟨c, rest, rfl, hbad⟩

/-- The validator accepts exactly the strings with an accepted shape as an
anchored prefix. -/
theorem is_valid_iff (s : String) :
    is_valid_youtube_url s = true ↔ AcceptedShape s := by
  unfold is_valid_youtube_url YOUTUBE_PATTERNS
  simp only [List.any_cons, List.any_nil, Bool.or_eq_true, Bool.or_false]
  rw [matchShape_iff, matchShape_iff, matchShape_iff, matchShape_iff]
  exact Iff.rfl

/-- A shape-prefix survives appending arbitrary text. -/
theorem shapeMatch_append {subs : List String} {host : String} {bad : Char → Bool}
    {s : String} (t : String) (h : ShapeMatch subs host bad s) :
    ShapeMatch subs host bad (s ++ t) := by
  obtain ⟨scheme, h1, sb, h2, c, rest, heq, hbad⟩ := h
  refine ⟨scheme, h1, sb, h2, c, rest ++ t.data, ?_, hbad⟩
  rw [String.data_append, heq]
  simp [List.append_assoc]

/-! ### Run context: output folder, log-file path, settings, yt-dlp options -/

/-- A wall-clock instant at second resolution, the input of
`datetime.datetime.now().strftime('%Y%m%d_%H%M%S')`. -/
@[ext]
structure DateTime where
  year : Nat
  month : Nat
  day : Nat
  hour : Nat
  minute : Nat
  second : Nat
deriving DecidableEq

/-- Realistic field bounds for a `datetime.datetime` value. -/
def ValidDateTime (t : DateTime) : Prop :=
  t.year < 10000 ∧ 1 ≤ t.month ∧ t.month ≤ 12 ∧ 1 ≤ t.day ∧ t.day ≤ 31 ∧
    t.hour < 24 ∧ t.minute < 60 ∧ t.second < 60

instance (t : DateTime) : Decidable (ValidDateTime t) := by
  unfold ValidDateTime; infer_instance

/-- Two-digit zero-padded decimal rendering, as `strftime` produces for
`%m`, `%d`, `%H`, `%M` and `%S` (fields are below 100 on real dates). -/
def pad2 (n : Nat) : String := ⟨[Nat.digitChar (n / 10), Nat.digitChar (n % 10)]⟩

/-- Four-digit zero-padded decimal rendering, as CPython's `strftime`
produces for `%Y` (years are below 10000). -/
def pad4 (n : Nat) : String :=
  ⟨[Nat.digitChar (n / 1000), Nat.digitChar (n / 100 % 10),
    Nat.digitChar (n / 10 % 10), Nat.digitChar (n % 10)]⟩

/-- `datetime.datetime.now().strftime('%Y%m%d_%H%M%S')`. -/
def strftime_stamp (t : DateTime) : String :=
  pad4 t.year ++ pad2 t.month ++ pad2 t.day ++ "_" ++
    pad2 t.hour ++ pad2 t.minute ++ pad2 t.second

/-- `pathlib`'s `/` operator; the platform-specific separator is
abstracted as `/`. -/
def joinPath (a b : String) : String := a ++ "/" ++ b

/-- `get_download_folder`, path part: `script_dir / "Downloads"`.  The
`mkdir(parents=True, exist_ok=True)` side effect it performs appears as a
`mkdir` event in `main`'s trace. -/
def get_download_folder (script_dir : String) : String := joinPath script_dir "Downloads"

/-- `make_log_file`: the log path `outdir / "download_TIMESTAMP.log"`
with the `strftime` stamp above. -/
def make_log_file (outdir : String) (now : DateTime) : String :=
  joinPath outdir ("download_" ++ strftime_stamp now ++ ".log")

/-- The module-level `SETTINGS` dictionary (fixed tunable constants). -/
structure Settings where
  format : String
  merge_output_format : String
  force_overwrites : Bool
  no_continue : Bool
  ignoreerrors : Bool
  retries : Nat
  fragment_retries : Nat
  writethumbnail : Bool
  writeinfojson : Bool
  embedthumbnail : Bool
  restrictfilenames : Bool
deriving DecidableEq

def SETTINGS : Settings where
  format := "bv*+ba/best"
  merge_output_format := "mp4"
  force_overwrites := true
  no_continue := true
  ignoreerrors := true
  retries := 10
  fragment_retries := 10
  writethumbnail := true
  writeinfojson := true
  embedthumbnail := true
  restrictfilenames := true

/-- The `ydl_opts` dictionary handed to `yt_dlp.YoutubeDL`.  The `logger`
entry holds `None`, or the log-file path of the `FileLogger` instance that
replaces it before the download runs. -/
structure YdlOpts where
  format : String
  merge_output_format : String
  outtmpl : String
  writethumbnail : Bool
  writeinfojson : Bool
  embedthumbnail : Bool
  restrictfilenames : Bool
  retries : Nat
  fragment_retries : Nat
  ignoreerrors : Bool
  nooverwrites : Bool
  continuedl : Bool
  ffmpeg_location : String
  logger : Option String
deriving DecidableEq

/-- The `ydl_opts` literal of `main`, as first constructed (before the
logger is attached). -/
def ydl_opts (outdir ffmpeg_path : String) : YdlOpts where
  format := SETTINGS.format
  merge_output_format := SETTINGS.merge_output_format
  outtmpl := joinPath (joinPath outdir "%(title)s") "%(title)s.%(ext)s"
  writethumbnail := SETTINGS.writethumbnail
  writeinfojson := SETTINGS.writeinfojson
  embedthumbnail := SETTINGS.embedthumbnail
  restrictfilenames := SETTINGS.restrictfilenames
  retries := SETTINGS.retries
  fragment_retries := SETTINGS.fragment_retries
  ignoreerrors := SETTINGS.ignoreerrors
  nooverwrites := !SETTINGS.force_overwrites
  continuedl := !SETTINGS.no_continue
  ffmpeg_location := ffmpeg_path
  logger := none

/-! ### The main control flow as an event trace -/

/-- One observable action of `main`: a console print, the (idempotent)
creation of the Downloads directory, or the single call into the
extraction engine. -/
inductive Event where
  | printMsg (s : String)
  | mkdir (dir : String)
  | invoke (opts : YdlOpts) (urls : List String)
deriving DecidableEq

def Event.isMkdir : Event → Bool
  | .mkdir _ => true
  | _ => false

def Event.isInvoke : Event → Bool
  | .invoke _ _ => true
  | _ => false

/-- The ambient world of one run: the command-line arguments after the
script name, the line `input()` would read, the current wall-clock time,
the script's directory, whether `ffmpeg.exe` exists next to the script,
and the integer code `ydl.download([url])` would return. -/
structure Env where
  argv : List String
  stdin : String
  now : DateTime
  script_dir : String
  ffmpeg_exists : Bool
  download_result : Int
deriving DecidableEq

/-- Line 59: `sys.argv[1] if len(sys.argv) > 1 else input(...).strip()`. -/
def resolve_url (argv : List String) (stdin : String) : String :=
  match argv with
  | u :: _ => u
  | [] => pyStrip stdin

/-- `main`, modelled as the ordered trace of its observable events paired
with the process exit code (`sys.exit(1)` on the two early-error paths,
implicit exit `0` otherwise). -/
def main (e : Env) : List Event × Nat :=
  let url := resolve_url e.argv e.stdin
  if !is_valid_youtube_url url then
    ([Event.printMsg "Invalid or unsupported YouTube URL."], 1)
  else
    let outdir := get_download_folder e.script_dir
    let logpath := make_log_file outdir e.now
    let ffmpeg_path := joinPath e.script_dir "ffmpeg.exe"
    if !e.ffmpeg_exists then
      ([Event.mkdir outdir,
        Event.printMsg ("Output folder: " ++ outdir),
        Event.printMsg ("Log file: " ++ logpath),
        Event.printMsg ("⚠️ ffmpeg.exe not found in " ++ e.script_dir ++
          ". Please place ffmpeg.exe next to this script.")], 1)
    else
      let opts := { ydl_opts outdir ffmpeg_path with logger := some logpath }
      ([Event.mkdir outdir,
        Event.printMsg ("Output folder: " ++ outdir),
        Event.printMsg ("Log file: " ++ logpath),
        Event.invoke opts [url],
        Event.printMsg (if e.download_result = 0 then "✅ Download complete."
          else "⚠️ Download finished with exit code " ++ toString e.download_result ++
            ". See log for details.")], 0)

/-! ### The FileLogger adapter -/

/-- One observable action of a `FileLogger` call: a console print, or the
opening / appending / closing of the log file. -/
inductive LogEvent where
  | consoleLine (s : String)
  | fileOpen (path : String)
  | fileWrite (path content : String)
  | fileClose (path : String)
deriving DecidableEq

def LogEvent.isConsole : LogEvent → Bool
  | .consoleLine _ => true
  | _ => false

def LogEvent.isFileWrite : LogEvent → Bool
  | .fileWrite _ _ => true
  | _ => false

/-- The `FileLogger` class: its only state is the log-file path. -/
structure FileLogger where
  logfile : String
deriving DecidableEq

/-- `FileLogger._write`: print the timestamped, severity-tagged line, then
open the log file for append, write the same line plus a newline, and
close it — all within the one call.  `now` abstracts the string printed
for `datetime.datetime.now()`. -/
def FileLogger._write (l : FileLogger) (now level msg : String) : List LogEvent :=
  let line := "[" ++ now ++ "] [" ++ level ++ "] " ++ msg
  [LogEvent.consoleLine line,
   LogEvent.fileOpen l.logfile,
   LogEvent.fileWrite l.logfile (line ++ "\n"),
   LogEvent.fileClose l.logfile]

def FileLogger.debug (l : FileLogger) (now msg : String) : List LogEvent :=
  l._write now "DEBUG" msg

def FileLogger.warning (l : FileLogger) (now msg : String) : List LogEvent :=
  l._write now "WARN" msg

def FileLogger.error (l : FileLogger) (now msg : String) : List LogEvent :=
  l._write now "ERROR" msg

/-! ### Auxiliary facts about digit rendering -/

theorem digitChar_inj {a b : Nat} (ha : a < 10) (hb : b < 10)
    (h : Nat.digitChar a = Nat.digitChar b) : a = b := by
  interval_cases a <;> interval_cases b <;> revert h <;> decide

theorem digitChar_ne_slash (n : Nat) : Nat.digitChar n ≠ '/' := by
  by_cases h16 : n < 16
  · interval_cases n <;> decide
  · unfold Nat.digitChar
    iterate 16 rw [if_neg (by omega)]
    decide

theorem stamp_data (t : DateTime) :
    (strftime_stamp t).data =
      [Nat.digitChar (t.year / 1000), Nat.digitChar (t.year / 100 % 10),
       Nat.digitChar (t.year / 10 % 10), Nat.digitChar (t.year % 10),
       Nat.digitChar (t.month / 10), Nat.digitChar (t.month % 10),
       Nat.digitChar (t.day / 10), Nat.digitChar (t.day % 10), '_',
       Nat.digitChar (t.hour / 10), Nat.digitChar (t.hour % 10),
       Nat.digitChar (t.minute / 10), Nat.digitChar (t.minute % 10),
       Nat.digitChar (t.second / 10), Nat.digitChar (t.second % 10)] := rfl

theorem strftime_stamp_inj {t1 t2 : DateTime} (h1 : ValidDateTime t1)
    (h2 : ValidDateTime t2) (h : strftime_stamp t1 = strftime_stamp t2) : t1 = t2 := by
  unfold ValidDateTime at h1 h2
  obtain ⟨hy1, hmo1a, hmo1b, hd1a, hd1b, hh1, hmi1, hs1⟩ := h1
  obtain ⟨hy2, hmo2a, hmo2b, hd2a, hd2b, hh2, hmi2, hs2⟩ := h2
  have hd := congrArg String.data h
  rw [stamp_data, stamp_data] at hd
  simp only [List.cons.injEq, eq_self_iff_true, true_and, and_true] at hd
  obtain ⟨e1, e2, e3, e4, e5, e6, e7, e8, e9, e10, e11, e12, e13, e14⟩ := hd
  have ky1 := digitChar_inj (by omega) (by omega) e1
  have ky2 := digitChar_inj (by omega) (by omega) e2
  have ky3 := digitChar_inj (by omega) (by omega) e3
  have ky4 := digitChar_inj (by omega) (by omega) e4
  have kmo1 := digitChar_inj (by omega) (by omega) e5
  have kmo2 := digitChar_inj (by omega) (by omega) e6
  have kd1 := digitChar_inj (by omega) (by omega) e7
  have kd2 := digitChar_inj (by omega) (by omega) e8
  have kh1 := digitChar_inj (by omega) (by omega) e9
  have kh2 := digitChar_inj (by omega) (by omega) e10
  have kmi1 := digitChar_inj (by omega) (by omega) e11
  have kmi2 := digitChar_inj (by omega) (by omega) e12
  have ks1 := digitChar_inj (by omega) (by omega) e13
  have ks2 := digitChar_inj (by omega) (by omega) e14
  ext <;> omega

/-! ### The claims -/

/-- Claim C1: the validator returns true exactly when the input has one of
the four accepted shapes as a prefix anchored at the start (http/https
scheme, tolerated subdomain, fixed host-and-path segment, one further
non-forbidden character); matching being prefix-only, appending arbitrary
trailing text to an accepted string keeps it accepted.  The function is a
pure predicate on the string. -/
theorem claim_C1 :
    (∀ s : String, is_valid_youtube_url s = true ↔ AcceptedShape s) ∧
    (∀ s t : String, is_valid_youtube_url s = true → is_valid_youtube_url (s ++ t) = true) := by
  constructor
  · exact is_valid_iff
  · intro s t h
    rw [is_valid_iff] at h ⊢
    unfold AcceptedShape at h ⊢
    rcases h with h | h | h | h
    · exact Or.inl (shapeMatch_append t h)
    · exact Or.inr (Or.inl (shapeMatch_append t h))
    · exact Or.inr (Or.inr (Or.inl (shapeMatch_append t h)))
    · exact Or.inr (Or.inr (Or.inr (shapeMatch_append t h)))

theorem claim_C1_witness :
    is_valid_youtube_url ("https://youtu.be/dQw4w9WgXcQ" ++ "&feature=share trailing garbage") = true :=
  claim_C1.2 "https://youtu.be/dQw4w9WgXcQ" "&feature=share trailing garbage" (by decide)

/-- The C2 spec sentence reads the `www.`/`m.` tolerance as applying to
every shape: any shape combined with any of no prefix, `www.`, or `m.`. -/
def ClaimedAnySubShape (s : String) : Prop :=
  ShapeMatch ["", "www.", "m."] "youtube.com/watch?v=" badAmp s ∨
  ShapeMatch ["", "www.", "m."] "youtube.com/playlist?list=" badAmp s ∨
  ShapeMatch ["", "www.", "m."] "youtu.be/" badQm s

/-- Claim C2, counterexample: a playlist URL with an `m.` subdomain prefix
matches the claimed shape-with-any-subdomain reading, yet the validator
rejects it — the playlist regex only tolerates `www.`. -/
theorem claim_C2_counterexample :
    ClaimedAnySubShape "https://m.youtube.com/playlist?list=PL123" ∧
    is_valid_youtube_url "https://m.youtube.com/playlist?list=PL123" = false := by
  constructor
  · unfold ClaimedAnySubShape
    refine Or.inr (Or.inl ⟨"https://", by simp, "m.", by simp, 'P', "L123".data, ?_, by decide⟩)
    decide
  · decide

/-- Claim C2 (amended): strings matching the watch shape with no prefix,
`www.`, or `m.`, and the playlist / short-link shapes with no prefix or
`www.` only, are accepted; and every accepted string starts with `http://`
or `https://` and contains one of the three required host-and-path
segments. -/
theorem claim_C2 :
    (∀ s : String, AcceptedShape s → is_valid_youtube_url s = true) ∧
    (∀ s : String, is_valid_youtube_url s = true →
      ((∃ r, s.data = "http://".data ++ r) ∨ (∃ r, s.data = "https://".data ++ r)) ∧
      ((∃ p q, s.data = p ++ "youtube.com/watch?v=".data ++ q) ∨
       (∃ p q, s.data = p ++ "youtube.com/playlist?list=".data ++ q) ∨
       (∃ p q, s.data = p ++ "youtu.be/".data ++ q))) := by
  have key : ∀ (subs : List String) (host : String) (bad : Char → Bool) (s : String),
      ShapeMatch subs host bad s →
      ((∃ r, s.data = "http://".data ++ r) ∨ (∃ r, s.data = "https://".data ++ r)) ∧
      (∃ p q, s.data = p ++ host.data ++ q) := by
    rintro subs host bad s ⟨scheme, hscheme, sb, hsb, c, rest, heq, -⟩
    constructor
    · simp only [List.mem_cons, List.not_mem_nil, or_false] at hscheme
      rcases hscheme with rfl | rfl
      · refine Or.inl ⟨(sb ++ host).data ++ c :: rest, ?_⟩
        rw [heq]; simp [String.data_append, List.append_assoc]
      · refine Or.inr ⟨(sb ++ host).data ++ c :: rest, ?_⟩
        rw [heq]; simp [String.data_append, List.append_assoc]
    · refine ⟨(scheme ++ sb).data, c :: rest, ?_⟩
      rw [heq]; simp [String.data_append, List.append_assoc]
  constructor
  · intro s h
    exact (is_valid_iff s).mpr h
  · intro s h
    rw [is_valid_iff] at h
    unfold AcceptedShape at h
    rcases h with h | h | h | h
    · obtain ⟨ha, hb⟩ := key _ _ _ _ h
      exact ⟨ha, Or.inl hb⟩
    · obtain ⟨ha, hb⟩ := key _ _ _ _ h
      exact ⟨ha, Or.inr (Or.inl hb)⟩
    · obtain ⟨ha, hb⟩ := key _ _ _ _ h
      exact ⟨ha, Or.inl hb⟩
    · obtain ⟨ha, hb⟩ := key _ _ _ _ h
      exact ⟨ha, Or.inr (Or.inr hb)⟩

theorem claim_C2_witness :
    is_valid_youtube_url "https://m.youtube.com/watch?v=dQw4" = true :=
  claim_C2.1 "https://m.youtube.com/watch?v=dQw4"
    (Or.inr (Or.inr (Or.inl ⟨"https://", by simp, "m.", by simp, 'd', "Qw4".data,
      by decide, by decide⟩)))

/-- Claim C3: on an invalid URL, `main` prints the error line and exits
with code 1, and its trace contains no directory creation and no engine
invocation (nothing else happens first — the error print is the entire
trace, so no log file, configuration, or extraction call is reached). -/
theorem claim_C3 (e : Env)
    (h : is_valid_youtube_url (resolve_url e.argv e.stdin) = false) :
    main e = ([Event.printMsg "Invalid or unsupported YouTube URL."], 1) ∧
    ((main e).1.all fun ev => !ev.isMkdir && !ev.isInvoke) = true := by
  have hm : main e = ([Event.printMsg "Invalid or unsupported YouTube URL."], 1) := by
    simp [main, h]
  exact ⟨hm, by rw [hm]; rfl⟩

theorem claim_C3_witness :
    main ⟨["notaurl"], "", ⟨2025, 1, 2, 3, 4, 5⟩, "SCRIPTDIR", true, 0⟩ =
      ([Event.printMsg "Invalid or unsupported YouTube URL."], 1) :=
  (claim_C3 ⟨["notaurl"], "", ⟨2025, 1, 2, 3, 4, 5⟩, "SCRIPTDIR", true, 0⟩ (by decide)).1

/-- Claim C4: with a valid URL but no `ffmpeg.exe` next to the script,
`main` first creates the output directory, prints the folder and log-file
lines, then prints a diagnostic naming the script directory and exits with
code 1; the extraction engine is never invoked (no `invoke` event), and
the `mkdir` event precedes the binary-existence failure (it heads the
trace). -/
theorem claim_C4 (e : Env)
    (hv : is_valid_youtube_url (resolve_url e.argv e.stdin) = true)
    (hf : e.ffmpeg_exists = false) :
    main e = ([Event.mkdir (get_download_folder e.script_dir),
               Event.printMsg ("Output folder: " ++ get_download_folder e.script_dir),
               Event.printMsg ("Log file: " ++
                 make_log_file (get_download_folder e.script_dir) e.now),
               Event.printMsg ("⚠️ ffmpeg.exe not found in " ++ e.script_dir ++
                 ". Please place ffmpeg.exe next to this script.")], 1) ∧
    ((main e).1.all fun ev => !ev.isInvoke) = true ∧
    (main e).1.head? = some (Event.mkdir (get_download_folder e.script_dir)) := by
  have hm : main e = ([Event.mkdir (get_download_folder e.script_dir),
      Event.printMsg ("Output folder: " ++ get_download_folder e.script_dir),
      Event.printMsg ("Log file: " ++
        make_log_file (get_download_folder e.script_dir) e.now),
      Event.printMsg ("⚠️ ffmpeg.exe not found in " ++ e.script_dir ++
        ". Please place ffmpeg.exe next to this script.")], 1) := by
    simp [main, hv, hf]
  refine ⟨hm, by rw [hm]; rfl, by rw [hm]; rfl⟩

theorem claim_C4_witness :
    ((main ⟨["https://youtu.be/x"], "", ⟨2025, 1, 2, 3, 4, 5⟩, "S", false, 0⟩).1.all
      fun ev => !ev.isInvoke) = true :=
  (claim_C4 ⟨["https://youtu.be/x"], "", ⟨2025, 1, 2, 3, 4, 5⟩, "S", false, 0⟩
    (by decide) rfl).2.1

/-- Claim C5: once the extraction call is reached (valid URL, binary
present), the process exit code is 0 whatever integer the engine returns;
the final print is the success line for result 0 and otherwise a line that
carries the engine's code in its text, and that failure line never equals
the success line. -/
theorem claim_C5 (e : Env)
    (hv : is_valid_youtube_url (resolve_url e.argv e.stdin) = true)
    (hf : e.ffmpeg_exists = true) :
    (main e).2 = 0 ∧
    main e = ([Event.mkdir (get_download_folder e.script_dir),
               Event.printMsg ("Output folder: " ++ get_download_folder e.script_dir),
               Event.printMsg ("Log file: " ++
                 make_log_file (get_download_folder e.script_dir) e.now),
               Event.invoke { ydl_opts (get_download_folder e.script_dir)
                   (joinPath e.script_dir "ffmpeg.exe") with
                 logger := some (make_log_file (get_download_folder e.script_dir) e.now) }
                 [resolve_url e.argv e.stdin],
               Event.printMsg (if e.download_result = 0 then "✅ Download complete."
                 else "⚠️ Download finished with exit code " ++ toString e.download_result ++
                   ". See log for details.")], 0) ∧
    ("⚠️ Download finished with exit code " ++ toString e.download_result ++
      ". See log for details.") ≠ "✅ Download complete." := by
  refine ⟨?_, ?_, ?_⟩
  · simp [main, hv, hf]
  · simp [main, hv, hf]
  · intro hcontra
    have hl := congrArg String.length hcontra
    rw [String.length_append, String.length_append] at hl
    have l1 : ("⚠️ Download finished with exit code " : String).length = 36 := rfl
    have l2 : (". See log for details." : String).length = 22 := rfl
    have l3 : ("✅ Download complete." : String).length = 20 := rfl
    omega

theorem claim_C5_witness :
    (main ⟨["https://youtu.be/x"], "", ⟨2025, 1, 2, 3, 4, 5⟩, "S", true, 7⟩).2 = 0 :=
  (claim_C5 ⟨["https://youtu.be/x"], "", ⟨2025, 1, 2, 3, 4, 5⟩, "S", true, 7⟩
    (by decide) rfl).1

/-- Claim C6: the assembled option record always carries format
`bv*+ba/best`, container `mp4`, retries and fragment retries 10, the
overwrite-forbidding and resume-continuation flags as negations of the
corresponding constants (hence both false), the four boolean writers and
the filename restriction true, the external-binary path passed through,
and the per-title output template; and the run that reaches the engine
invokes it with exactly that record built from the sibling `ffmpeg.exe`
path, the logger attached. -/
theorem claim_C6 (outdir ffmpeg_path : String) (e : Env)
    (hv : is_valid_youtube_url (resolve_url e.argv e.stdin) = true)
    (hf : e.ffmpeg_exists = true) :
    ydl_opts outdir ffmpeg_path =
      { format := "bv*+ba/best",
        merge_output_format := "mp4",
        outtmpl := outdir ++ "/%(title)s/%(title)s.%(ext)s",
        writethumbnail := true,
        writeinfojson := true,
        embedthumbnail := true,
        restrictfilenames := true,
        retries := 10,
        fragment_retries := 10,
        ignoreerrors := true,
        nooverwrites := !SETTINGS.force_overwrites,
        continuedl := !SETTINGS.no_continue,
        ffmpeg_location := ffmpeg_path,
        logger := none } ∧
    (!SETTINGS.force_overwrites) = false ∧
    (!SETTINGS.no_continue) = false ∧
    Event.invoke { ydl_opts (get_download_folder e.script_dir)
        (joinPath e.script_dir "ffmpeg.exe") with
      logger := some (make_log_file (get_download_folder e.script_dir) e.now) }
      [resolve_url e.argv e.stdin] ∈ (main e).1 := by
  refine ⟨?_, rfl, rfl, ?_⟩
  · have houtt : joinPath (joinPath outdir "%(title)s") "%(title)s.%(ext)s" =
        outdir ++ "/%(title)s/%(title)s.%(ext)s" := by
      apply String.ext
      simp [joinPath, String.data_append, List.append_assoc]
    simp [ydl_opts, SETTINGS, houtt]
  · simp [main, hv, hf]

theorem claim_C6_witness :
    ydl_opts "OUT" "FF" =
      { format := "bv*+ba/best",
        merge_output_format := "mp4",
        outtmpl := "OUT" ++ "/%(title)s/%(title)s.%(ext)s",
        writethumbnail := true,
        writeinfojson := true,
        embedthumbnail := true,
        restrictfilenames := true,
        retries := 10,
        fragment_retries := 10,
        ignoreerrors := true,
        nooverwrites := !SETTINGS.force_overwrites,
        continuedl := !SETTINGS.no_continue,
        ffmpeg_location := "FF",
        logger := none } :=
  (claim_C6 "OUT" "FF" ⟨["https://youtu.be/x"], "", ⟨2025, 1, 2, 3, 4, 5⟩, "S", true, 0⟩
    (by decide) rfl).1

/-- Claim C7: the log-file path is the output directory, the separator,
and the bare name `download_<stamp>.log` where the stamp is the run's
date-time rendered as `YYYYMMDD_HHMMSS`; the name contains no separator
(so the file sits directly inside the directory); and two runs collide on
the name exactly when their clocks agree to the second. -/
theorem claim_C7 (outdir : String) (t1 t2 : DateTime)
    (h1 : ValidDateTime t1) (h2 : ValidDateTime t2) :
    make_log_file outdir t1 =
      outdir ++ "/" ++ ("download_" ++ strftime_stamp t1 ++ ".log") ∧
    (("download_" ++ strftime_stamp t1 ++ ".log").data.all fun c => c != '/') = true ∧
    (make_log_file outdir t1 = make_log_file outdir t2 ↔ t1 = t2) := by
  refine ⟨rfl, ?_, ?_, ?_⟩
  · have hn : ("download_" ++ strftime_stamp t1 ++ ".log").data =
        ['d', 'o', 'w', 'n', 'l', 'o', 'a', 'd', '_',
         Nat.digitChar (t1.year / 1000), Nat.digitChar (t1.year / 100 % 10),
         Nat.digitChar (t1.year / 10 % 10), Nat.digitChar (t1.year % 10),
         Nat.digitChar (t1.month / 10), Nat.digitChar (t1.month % 10),
         Nat.digitChar (t1.day / 10), Nat.digitChar (t1.day % 10), '_',
         Nat.digitChar (t1.hour / 10), Nat.digitChar (t1.hour % 10),
         Nat.digitChar (t1.minute / 10), Nat.digitChar (t1.minute % 10),
         Nat.digitChar (t1.second / 10), Nat.digitChar (t1.second % 10),
         '.', 'l', 'o', 'g'] := rfl
    rw [hn]
    simp only [List.all_cons, List.all_nil, Bool.and_eq_true, bne_iff_ne, ne_eq]
    simp [digitChar_ne_slash]
  · intro heq
    have hd := congrArg String.data heq
    have d1 : (make_log_file outdir t1).data =
        (outdir.data ++ ['/']) ++
          ['d', 'o', 'w', 'n', 'l', 'o', 'a', 'd', '_',
           Nat.digitChar (t1.year / 1000), Nat.digitChar (t1.year / 100 % 10),
           Nat.digitChar (t1.year / 10 % 10), Nat.digitChar (t1.year % 10),
           Nat.digitChar (t1.month / 10), Nat.digitChar (t1.month % 10),
           Nat.digitChar (t1.day / 10), Nat.digitChar (t1.day % 10), '_',
           Nat.digitChar (t1.hour / 10), Nat.digitChar (t1.hour % 10),
           Nat.digitChar (t1.minute / 10), Nat.digitChar (t1.minute % 10),
           Nat.digitChar (t1.second / 10), Nat.digitChar (t1.second % 10),
           '.', 'l', 'o', 'g'] := rfl
    have d2 : (make_log_file outdir t2).data =
        (outdir.data ++ ['/']) ++
          ['d', 'o', 'w', 'n', 'l', 'o', 'a', 'd', '_',
           Nat.digitChar (t2.year / 1000), Nat.digitChar (t2.year / 100 % 10),
           Nat.digitChar (t2.year / 10 % 10), Nat.digitChar (t2.year % 10),
           Nat.digitChar (t2.month / 10), Nat.digitChar (t2.month % 10),
           Nat.digitChar (t2.day / 10), Nat.digitChar (t2.day % 10), '_',
           Nat.digitChar (t2.hour / 10), Nat.digitChar (t2.hour % 10),
           Nat.digitChar (t2.minute / 10), Nat.digitChar (t2.minute % 10),
           Nat.digitChar (t2.second / 10), Nat.digitChar (t2.second % 10),
           '.', 'l', 'o', 'g'] := rfl
    rw [d1, d2] at hd
    have h28 := List.append_cancel_left hd
    simp only [List.cons.injEq, eq_self_iff_true, true_and, and_true] at h28
    obtain ⟨e1, e2, e3, e4, e5, e6, e7, e8, e9, e10, e11, e12, e13, e14⟩ := h28
    refine strftime_stamp_inj h1 h2 (String.ext ?_)
    rw [stamp_data, stamp_data, e1, e2, e3, e4, e5, e6, e7, e8, e9, e10,
        e11, e12, e13, e14]
  · intro heq
    rw [heq]

theorem claim_C7_witness :
    make_log_file "out" ⟨2026, 10, 12, 9, 30, 5⟩ ≠
      make_log_file "out" ⟨2026, 10, 12, 9, 30, 7⟩ := by
  intro h
  have := (claim_C7 "out" ⟨2026, 10, 12, 9, 30, 5⟩ ⟨2026, 10, 12, 9, 30, 7⟩
    (by decide) (by decide)).2.2.mp h
  exact absurd this (by decide)

/-- Claim C8: each of the three logger operations emits exactly one
console line — the message prefixed with the timestamp and its severity
tag — and appends the identical line (plus a newline) to the log file,
opening and closing the file inside the very same call. -/
theorem claim_C8 (l : FileLogger) (now msg : String) :
    l.debug now msg =
      [LogEvent.consoleLine ("[" ++ now ++ "] [" ++ "DEBUG" ++ "] " ++ msg),
       LogEvent.fileOpen l.logfile,
       LogEvent.fileWrite l.logfile (("[" ++ now ++ "] [" ++ "DEBUG" ++ "] " ++ msg) ++ "\n"),
       LogEvent.fileClose l.logfile] ∧
    l.warning now msg =
      [LogEvent.consoleLine ("[" ++ now ++ "] [" ++ "WARN" ++ "] " ++ msg),
       LogEvent.fileOpen l.logfile,
       LogEvent.fileWrite l.logfile (("[" ++ now ++ "] [" ++ "WARN" ++ "] " ++ msg) ++ "\n"),
       LogEvent.fileClose l.logfile] ∧
    l.error now msg =
      [LogEvent.consoleLine ("[" ++ now ++ "] [" ++ "ERROR" ++ "] " ++ msg),
       LogEvent.fileOpen l.logfile,
       LogEvent.fileWrite l.logfile (("[" ++ now ++ "] [" ++ "ERROR" ++ "] " ++ msg) ++ "\n"),
       LogEvent.fileClose l.logfile] ∧
    ((l.debug now msg).filter LogEvent.isConsole).length = 1 ∧
    ((l.debug now msg).filter LogEvent.isFileWrite).length = 1 :=
  ⟨rfl, rfl, rfl, rfl, rfl⟩

/-- Claim C9: a command-line URL is used verbatim while an interactive URL
is whitespace-stripped before validation; concretely, a valid URL wrapped
in spaces is accepted (exit 0) through the prompt but rejected (exit 1) as
an argument. -/
theorem claim_C9 :
    (∀ (u : String) (rest : List String) (stdin : String), resolve_url (u :: rest) stdin = u) ∧
    (∀ stdin : String, resolve_url [] stdin = pyStrip stdin) ∧
    is_valid_youtube_url (pyStrip "  https://www.youtube.com/watch?v=abc123  ") = true ∧
    is_valid_youtube_url "  https://www.youtube.com/watch?v=abc123  " = false ∧
    (main ⟨[], "  https://www.youtube.com/watch?v=abc123  ",
      ⟨2025, 1, 2, 3, 4, 5⟩, "S", true, 0⟩).2 = 0 ∧
    (main ⟨["  https://www.youtube.com/watch?v=abc123  "], "",
      ⟨2025, 1, 2, 3, 4, 5⟩, "S", true, 0⟩).2 = 1 :=
  ⟨fun _ _ _ => rfl, fun _ => rfl, by decide, by decide, by decide, by decide⟩

/-- Claim C10: the ignore-errors flag is fixed to true in the settings and
is passed through unchanged into every assembled option record. -/
theorem claim_C10 :
    SETTINGS.ignoreerrors = true ∧
    ∀ outdir ffmpeg_path : String,
      (ydl_opts outdir ffmpeg_path).ignoreerrors = SETTINGS.ignoreerrors ∧
      (ydl_opts outdir ffmpeg_path).ignoreerrors = true :=
  ⟨rfl, fun _ _ => ⟨rfl, rfl⟩⟩

end YoutubeRipper5000


